import Mathlib

/-!
Verification of the filswan/swan-boost-lib deal-negotiation and ask protocol.

The Go sources (src/client/client.go, src/provider/provider.go,
src/storedask/storedask.go) are shallowly embedded below.  External
collaborators (the lotus chain node, the libp2p host, the sqlite-backed
ask table, wallet signing) are modelled as explicit environments whose
operations may fail, exactly at the call sites where the Go code invokes
them.  Machine integers (int64, uint64, abi.ChainEpoch, big.Int) are
modelled as Int / Nat; `big.Div` of go-state-types delegates to Go
math/big Div, which is Euclidean division, i.e. Lean's `Int.ediv`
(written `/` below).  Decimal prices (shopspring decimal) are modelled
as exact rationals; no theorem below depends on decimal's 16-digit
division rounding.
-/

/-- Go `error` values as they occur in the embedded code: plain message
errors, the sentinel `sql.ErrNoRows`, and `fmt.Errorf`/`xerrors.Errorf`
wrapping with a context message (the `%w` verb). -/
inductive GoErr where
  | msg (s : String)
  | sqlErrNoRows
  | wrap (ctxMsg : String) (e : GoErr)
deriving DecidableEq

instance {α β : Type} [DecidableEq α] [DecidableEq β] : DecidableEq (Except α β)
  | .error a, .error b =>
    if h : a = b then .isTrue (by rw [h]) else .isFalse (by intro hc; cases hc; exact h rfl)
  | .ok a, .ok b =>
    if h : a = b then .isTrue (by rw [h]) else .isFalse (by intro hc; cases hc; exact h rfl)
  | .error _, .ok _ => .isFalse (by intro hc; cases hc)
  | .ok _, .error _ => .isFalse (by intro hc; cases hc)

namespace Myask

/-- Filecoin addresses, modelled as their string form. -/
abbrev Addr := String

/-- Cryptographic signatures, modelled abstractly. -/
abbrev Sig := String

/-- legacytypes.StorageAsk: one provider's price schedule
(storedask.go uses it as the persisted record). -/
structure StorageAsk where
  price : Int
  verifiedPrice : Int
  timestamp : Int
  expiry : Int
  miner : Addr
  seqNo : Nat
  minPieceSize : Nat
  maxPieceSize : Nat
deriving DecidableEq

/-- legacytypes.SignedStorageAsk: both fields are pointers in Go, so
each is an `Option`; the Go zero value `SignedStorageAsk{}` is
`⟨none, none⟩`. -/
structure SignedStorageAsk where
  ask : Option StorageAsk
  signature : Option Sig
deriving DecidableEq

/-- The Go zero value `legacytypes.SignedStorageAsk{}`. -/
def zeroSignedStorageAsk : SignedStorageAsk := ⟨none, none⟩

/-- Modelled from the spec: legacytypes.StorageAskOption values are not
under src/; spec section 4.1 and the design notes describe them as a
small tagged list of field overrides, one option per field, covering
the min and max piece size (the only two options provider.go builds). -/
inductive StorageAskOption where
  | minPieceSize (v : Nat)
  | maxPieceSize (v : Nat)
deriving DecidableEq

/-- One option mutates one field of the draft ask (spec section 4.1). -/
def applyOption (o : StorageAskOption) (a : StorageAsk) : StorageAsk :=
  match o with
  | .minPieceSize v => { a with minPieceSize := v }
  | .maxPieceSize v => { a with maxPieceSize := v }

/-- `for _, option := range options { option(ask) }` in SetAsk. -/
def applyOptions (os : List StorageAskOption) (a : StorageAsk) : StorageAsk :=
  os.foldl (fun acc o => applyOption o acc) a

/-- DefaultPrice in storedask.go (attoFil / GiB / epoch). -/
def DefaultPrice : Int := 50000000

/-- DefaultVerifiedPrice in storedask.go. -/
def DefaultVerifiedPrice : Int := 5000000

/-- DefaultMinPieceSize in storedask.go. -/
def DefaultMinPieceSize : Nat := 256

/-- DefaultMaxPieceSize in storedask.go (32 << 30). -/
def DefaultMaxPieceSize : Nat := 32 * 2 ^ 30

/-- Environment of the stored-ask component: injected faults of the
sqlite-backed ask table, the chain head query, and the composite
signing step `storedAsk.sign` (ChainHead + cbor dump + worker-key
lookup + WalletSign, storedask.go lines 107-133), whose outcome may
depend on the ask being signed. -/
structure AskEnv where
  dbReadFault : Addr → Option GoErr
  dbWriteFault : Option GoErr
  chainHead : Except GoErr Int
  sign : StorageAsk → Except GoErr Sig
  expandFault : Option GoErr
  repoInitialized : Bool
  createTableFault : Option GoErr
  persistedDb : Addr → Option StorageAsk

/-- State owned by a `storedAsk` value: the in-memory cache `s.asks`
and the durable table behind `s.db`. -/
structure StoredAskState where
  asks : Addr → Option SignedStorageAsk
  db : Addr → Option StorageAsk

/-- Pointwise map update. -/
def upd {β : Type} (f : Addr → Option β) (k : Addr) (v : β) : Addr → Option β :=
  fun x => if x = k then some v else f x

/-- Modelled from the spec: StorageAskDB.Get is not under src/; the
spec treats persistence as a reliable keyed store, so a read returns
the stored row for the provider or `sql.ErrNoRows` when none exists;
an injected fault models an I/O failure. -/
def dbGet (env : AskEnv) (s : StoredAskState) (m : Addr) : Except GoErr StorageAsk :=
  match env.dbReadFault m with
  | some e => .error e
  | none =>
    match s.db m with
    | some a => .ok a
    | none => .error .sqlErrNoRows

/-- storedAsk.getSignedAsk (storedask.go lines 185-199): loads the
persisted ask and re-signs it.  A db error is returned unchanged; a
signing failure returns the ZERO SignedStorageAsk together with a nil
error, faithfully embedding the `return legacytypes.SignedStorageAsk{},
nil` on the error branch. -/
def getSignedAsk (env : AskEnv) (s : StoredAskState) (m : Addr) :
    SignedStorageAsk × Option GoErr :=
  match dbGet env s m with
  | .error e => (zeroSignedStorageAsk, some e)
  | .ok ask =>
    match env.sign ask with
    | .error _ => (zeroSignedStorageAsk, none)
    | .ok sg => ({ ask := some ask, signature := some sg }, none)

/-- errors.Is(err, sql.ErrNoRows), which unwraps wrapped errors. -/
def errorsIsNoRows : GoErr → Bool
  | .sqlErrNoRows => true
  | .wrap _ e => errorsIsNoRows e
  | .msg _ => false

/-- The draft StorageAsk assembled by SetAsk (storedask.go lines
142-166) before the functional options run: seqno is prior + 1 when the
loaded SignedStorageAsk carries an ask, else 0; min/max piece size are
inherited from the prior ask, else the defaults; timestamp is the chain
height, expiry is height + duration. -/
def buildAsk (price verifiedPrice : Int) (duration : Int) (miner : Addr) (h : Int)
    (minerAsk : SignedStorageAsk) : StorageAsk :=
  { price := price
    verifiedPrice := verifiedPrice
    timestamp := h
    expiry := h + duration
    miner := miner
    seqNo := match minerAsk.ask with | some a => a.seqNo + 1 | none => 0
    minPieceSize := match minerAsk.ask with | some a => a.minPieceSize | none => DefaultMinPieceSize
    maxPieceSize := match minerAsk.ask with | some a => a.maxPieceSize | none => DefaultMaxPieceSize }

/-- storedAsk.storeAsk (storedask.go lines 201-203): s.db.Update.
Modelled from the spec: StorageAskDB.Update is a keyed write that
replaces the provider's row; an injected fault models a persistence
failure, which is fatal to the call. -/
def storeAsk (env : AskEnv) (s : StoredAskState) (ask : StorageAsk) :
    StoredAskState × Option GoErr :=
  match env.dbWriteFault with
  | some e => (s, some e)
  | none => ({ s with db := upd s.db ask.miner ask }, none)

/-- The tail of SetAsk after the prior ask was loaded and cached
(storedask.go lines 153-182): query the chain head, assemble the draft
ask, run the options, sign, cache the new SignedStorageAsk, then
persist the unsigned ask. -/
def setAskAfterLoad (env : AskEnv) (s1 : StoredAskState) (price verifiedPrice : Int)
    (duration : Int) (miner : Addr) (options : List StorageAskOption)
    (minerAsk : SignedStorageAsk) : StoredAskState × Option GoErr :=
  match env.chainHead with
  | .error e => (s1, some e)
  | .ok h =>
    let ask := applyOptions options (buildAsk price verifiedPrice duration miner h minerAsk)
    match env.sign ask with
    | .error e => (s1, some e)
    | .ok sg =>
      let s2 : StoredAskState :=
        { s1 with asks := upd s1.asks miner { ask := some ask, signature := some sg } }
      storeAsk env s2 ask

/-- storedAsk.SetAsk (storedask.go lines 135-183).  The load error is
fatal only when it is not sql.ErrNoRows; in the no-rows case (and in
the swallowed-signing-failure case) the zero SignedStorageAsk flows on,
is cached, and yields seqno 0 and default piece-size bounds. -/
def SetAsk (env : AskEnv) (s : StoredAskState) (price verifiedPrice : Int)
    (duration : Int) (miner : Addr) (options : List StorageAskOption) :
    StoredAskState × Option GoErr :=
  match getSignedAsk env s miner with
  | (minerAsk, some e) =>
    if errorsIsNoRows e then
      setAskAfterLoad env { s with asks := upd s.asks miner minerAsk }
        price verifiedPrice duration miner options minerAsk
    else (s, some (.wrap "get miner ask data failed" e))
  | (minerAsk, none) =>
    setAskAfterLoad env { s with asks := upd s.asks miner minerAsk }
      price verifiedPrice duration miner options minerAsk

/-- NewStoredAsk (storedask.go lines 54-77): expand the repo path, fail
when the repo directory does not exist, create the ask table (the
NewStorageAskDB error itself is overwritten by the createAskTable
assignment in the source), and return a store with an empty in-memory
cache over the persisted table.  On failure the Go function returns a
nil pointer together with the error. -/
def NewStoredAsk (env : AskEnv) (repo : String) : Except GoErr StoredAskState :=
  match env.expandFault with
  | some e => .error e
  | none =>
    if env.repoInitialized = false then
      .error (.msg ("boost-repo at " ++ repo ++ " is not initialized"))
    else
      match env.createTableFault with
      | some e => .error e
      | none => .ok { asks := fun _ => none, db := env.persistedDb }

end Myask

namespace Provider

/-- Outcome of a provider-side call: a normal Go return carrying an
optional error, or a runtime nil-pointer-dereference panic. -/
inductive MarketOutcome where
  | ret (e : Option GoErr)
  | panicNilDeref
deriving DecidableEq

/-- Parsers and build parameters MarketSetAsk calls before touching the
stored ask: types.ParseFIL, units.RAMInBytes, address.NewFromString,
and build.BlockDelaySecs (external collaborators). -/
structure ParseEnv where
  parseFIL : String → Except GoErr Int
  ramInBytes : String → Except GoErr Int
  parseAddr : String → Except GoErr Myask.Addr
  blockDelaySecs : Int

/-- Client.MarketSetAsk (provider.go lines 71-113): parse the two
prices, the two piece-size bounds (rejecting a minimum below 256
bytes), fix the ask duration to 720h of epochs, parse the miner
address, then build the stored ask and set the ask.  The error of
NewStoredAsk is DISCARDED in the source (`storedAsk, err := ...;
return storedAsk.SetAsk(...)`), so when NewStoredAsk fails the method
is invoked on a nil pointer and the first field access inside SetAsk
dereferences nil. -/
def MarketSetAsk (env : Myask.AskEnv) (penv : ParseEnv) (boostRepo minerId : String)
    (price verifiedPrice minPieceSize maxPieceSize : String) : MarketOutcome :=
  match penv.parseFIL price with
  | .error e => .ret (some e)
  | .ok pri =>
  match penv.parseFIL verifiedPrice with
  | .error e => .ret (some e)
  | .ok vpri =>
  match penv.ramInBytes minPieceSize with
  | .error e => .ret (some (.wrap "cannot parse min-piece-size to quantity of bytes" e))
  | .ok mn =>
  if mn < 256 then .ret (some (.msg "minimum piece size (w/bit-padding) is 256B"))
  else
  match penv.ramInBytes maxPieceSize with
  | .error e => .ret (some (.wrap "cannot parse max-piece-size to quantity of bytes" e))
  | .ok mx =>
  -- time.ParseDuration("720h0m0s") on this constant always succeeds:
  -- 2592000 seconds divided by the network block delay.
  let qty : Int := 2592000 / penv.blockDelaySecs
  match penv.parseAddr minerId with
  | .error e => .ret (some (.wrap "converting miner ID from config" e))
  | .ok miner =>
  let opts := [Myask.StorageAskOption.minPieceSize mn.toNat,
               Myask.StorageAskOption.maxPieceSize mx.toNat]
  match Myask.NewStoredAsk env boostRepo with
  | .error _ => .panicNilDeref
  | .ok st => .ret (Myask.SetAsk env st pri vpri qty miner opts).2

end Provider

namespace BoostClient

/-- types.DealResponse on the wire: accepted flag and provider
message. -/
structure DealResponse where
  accepted : Bool
  message : String
deriving DecidableEq

/-- DealParam (client.go lines 693-707). -/
structure DealParam where
  provider : String
  commp : String
  pieceSize : Nat
  carSize : Nat
  payloadCid : String
  startEpoch : Int
  startEpochHeadOffset : Int
  duration : Int
  providerCollateral : Int
  storagePrice : Int
  verified : Bool
  fastRetrieval : Bool
  wallet : String
deriving DecidableEq

/-- Externally visible activity of one negotiation attempt, in the
order sendDealToMiner performs it: peer resolution (GetAddrInfo),
peer connection (Host.Connect), the protocol-version check
(FirstSupportedProtocol), the two chain queries
(StateDealProviderCollateralBounds, ChainHead), opening the deal
stream, and the proposal round trip. -/
inductive NetEvent where
  | resolvePeer
  | connectPeer
  | protocolCheck
  | chainQueryCollateral
  | chainQueryHead
  | openStream
  | proposalRpc
deriving DecidableEq

/-- market.DealProposal as built by the dealProposal function
(client.go lines 640-651). -/
structure MarketDealProposal where
  pieceCID : String
  pieceSize : Nat
  verifiedDeal : Bool
  client : String
  provider : String
  label : String
  startEpoch : Int
  endEpoch : Int
  storagePricePerEpoch : Int
  providerCollateral : Int
deriving DecidableEq

/-- market.ClientDealProposal: the proposal plus the client wallet
signature. -/
structure ClientDealProposal where
  proposal : MarketDealProposal
  clientSignature : String
deriving DecidableEq

/-- Environment of sendDealToMiner: every fallible external call the
function makes, in source order. -/
structure NetEnv where
  setup : Except GoErr Unit
  dialArgs : Except GoErr Unit
  fullNodeConn : Except GoErr Unit
  walletFor : String → Except GoErr String
  parseAddr : String → Except GoErr String
  getAddrInfo : String → Except GoErr String
  connect : String → Except GoErr Unit
  firstSupportedProtocol : String → Except GoErr String
  parseCid : String → Except GoErr String
  collateralBounds : Nat → Bool → Except GoErr Int
  chainHead : Except GoErr Int
  labelFromCid : String → Except GoErr String
  walletSign : String → MarketDealProposal → Except GoErr String
  newStream : String → Except GoErr Unit
  rpcResponse : Except GoErr DealResponse
  dealUuid : String

/-- The pure assembly of the proposal record (client.go lines 632-651):
endEpoch is startEpoch plus the duration, and the per-epoch price is
pieceSize times the per-epoch-per-GiB price, Euclidean-divided by 2^30
(go math/big Div). -/
def mkDealProposal (clientAddr lbl : String) (pieceSize : Nat) (pieceCid minerAddr : String)
    (startEpoch duration : Int) (verified : Bool)
    (providerCollateral storagePrice : Int) : MarketDealProposal :=
  { pieceCID := pieceCid
    pieceSize := pieceSize
    verifiedDeal := verified
    client := clientAddr
    provider := minerAddr
    label := lbl
    startEpoch := startEpoch
    endEpoch := startEpoch + duration
    storagePricePerEpoch := ((pieceSize : Int) * storagePrice) / 2 ^ 30
    providerCollateral := providerCollateral }

/-- dealProposal (client.go lines 631-667): derive the label from the
root cid (failure is fatal), assemble the record, then cbor-serialize
and wallet-sign it (the serialize + sign step is one fallible external
call here). -/
def dealProposal (env : NetEnv) (clientAddr rootCid : String) (pieceSize : Nat)
    (pieceCid minerAddr : String) (startEpoch duration : Int) (verified : Bool)
    (providerCollateral storagePrice : Int) : Except GoErr ClientDealProposal :=
  match env.labelFromCid rootCid with
  | .error e => .error e
  | .ok lbl =>
    let proposal := mkDealProposal clientAddr lbl pieceSize pieceCid minerAddr
      startEpoch duration verified providerCollateral storagePrice
    match env.walletSign clientAddr proposal with
    | .error e => .error (.wrap "wallet sign failed" e)
    | .ok sg => .ok { proposal := proposal, clientSignature := sg }

/-- The tail of sendDealToMiner from the ChainHead query on (client.go
lines 561-629), parameterized by the trace of network events already
performed and the resolved provider collateral. -/
def sendDealCont (env : NetEnv) (dealP : DealParam) (walletAddr maddr peerId : String)
    (pieceCid rootCid : String) (tr : List NetEvent) (providerCollateral : Int) :
    List NetEvent × Except GoErr String :=
  match env.chainHead with
  | .error e => (tr ++ [.chainQueryHead], .error (.wrap "cannot get chain head" e))
  | .ok head =>
  if dealP.startEpoch ≠ 0 ∧ dealP.startEpochHeadOffset ≠ 0 then
    (tr ++ [.chainQueryHead],
     .error (.msg "only one flag from start-epoch-head-offset or start-epoch can be specified"))
  else
  let startEpoch : Int :=
    if dealP.startEpochHeadOffset ≠ 0 then head + dealP.startEpochHeadOffset
    else if dealP.startEpoch ≠ 0 then dealP.startEpoch
    else head + 5760
  match dealProposal env walletAddr rootCid dealP.pieceSize pieceCid maddr
      startEpoch dealP.duration dealP.verified providerCollateral dealP.storagePrice with
  | .error e => (tr ++ [.chainQueryHead], .error (.wrap "failed to create a deal proposal" e))
  | .ok _cdp =>
  match env.newStream peerId with
  | .error e => (tr ++ [.chainQueryHead, .openStream], .error (.wrap "failed to open stream to peer" e))
  | .ok _ =>
  match env.rpcResponse with
  | .error e => (tr ++ [.chainQueryHead, .openStream, .proposalRpc],
                 .error (.wrap "send proposal rpc" e))
  | .ok resp =>
  if resp.accepted then
    (tr ++ [.chainQueryHead, .openStream, .proposalRpc], .ok env.dealUuid)
  else
    (tr ++ [.chainQueryHead, .openStream, .proposalRpc],
     .error (.msg ("deal proposal rejected: " ++ resp.message)))

/-- sendDealToMiner (client.go lines 468-629), with the list of
network events it performed alongside the result.  The source order is
kept: node setup, api parsing, full-node connection, wallet selection
and provider-address parsing (no peer traffic), then peer resolution,
peer connection and the protocol check, then the commp parse /
piece-size / payload-cid / car-size validations, then the collateral
resolution and chain-head query, the mutually-exclusive start-epoch
check, proposal build + sign, stream open, the proposal round trip,
and the accepted check. -/
def sendDealToMiner (env : NetEnv) (dealP : DealParam) :
    List NetEvent × Except GoErr String :=
  match env.setup with
  | .error e => ([], .error e)
  | .ok _ =>
  match env.dialArgs with
  | .error e => ([], .error e)
  | .ok _ =>
  match env.fullNodeConn with
  | .error e => ([], .error (.wrap "cant setup fullnode connection" e))
  | .ok _ =>
  match env.walletFor dealP.wallet with
  | .error e => ([], .error e)
  | .ok walletAddr =>
  match env.parseAddr dealP.provider with
  | .error e => ([], .error e)
  | .ok maddr =>
  match env.getAddrInfo maddr with
  | .error e => ([.resolvePeer], .error e)
  | .ok peerId =>
  match env.connect peerId with
  | .error e => ([.resolvePeer, .connectPeer], .error (.wrap "failed to connect to peer" e))
  | .ok _ =>
  match env.firstSupportedProtocol peerId with
  | .error e => ([.resolvePeer, .connectPeer, .protocolCheck],
                 .error (.wrap "getting protocols for peer" e))
  | .ok x =>
  if x.length = 0 then
    ([.resolvePeer, .connectPeer, .protocolCheck],
     .error (.msg "boost client cannot make a deal with storage provider because it does not support protocol version 1.2.0"))
  else
  match env.parseCid dealP.commp with
  | .error e => ([.resolvePeer, .connectPeer, .protocolCheck], .error (.wrap "parsing commp" e))
  | .ok pieceCid =>
  if dealP.pieceSize = 0 then
    ([.resolvePeer, .connectPeer, .protocolCheck],
     .error (.msg "must provide piece-size parameter for CAR url"))
  else
  match env.parseCid dealP.payloadCid with
  | .error e => ([.resolvePeer, .connectPeer, .protocolCheck],
                 .error (.wrap "parsing payload cid" e))
  | .ok rootCid =>
  if dealP.carSize = 0 then
    ([.resolvePeer, .connectPeer, .protocolCheck],
     .error (.msg "size of car file cannot be 0"))
  else
  if dealP.providerCollateral ≠ 0 then
    sendDealCont env dealP walletAddr maddr peerId pieceCid rootCid
      [.resolvePeer, .connectPeer, .protocolCheck] dealP.providerCollateral
  else
  match env.collateralBounds dealP.pieceSize dealP.verified with
  | .error e => ([.resolvePeer, .connectPeer, .protocolCheck, .chainQueryCollateral],
                 .error (.wrap "node error getting collateral bounds" e))
  | .ok mn =>
  sendDealCont env dealP walletAddr maddr peerId pieceCid rootCid
    [.resolvePeer, .connectPeer, .protocolCheck, .chainQueryCollateral]
    ((mn * 6) / 5)

/-- lotus.MinerConfig as produced by the two ask sources (client.go
lines 866-877): prices as decimals, piece-size bounds as int64. -/
structure MinerConfig where
  price : Rat
  verifiedPrice : Rat
  minPieceSize : Int
  maxPieceSize : Int
deriving DecidableEq

/-- The slice of model.DealConfig the validator reads (external model
package; fields taken from their uses in client.go). -/
structure DealConfig where
  minerFid : String
  senderWallet : String
  fileSize : Int
  payloadCid : String
  verifiedDeal : Bool
  maxPrice : Rat
  duration : Int
  startEpoch : Int
deriving DecidableEq

/-- The distinct failure conditions of the validation path, one
constructor per error site in ValidateDealConfig /
CheckDealWithMinerConfig. -/
inductive ValErr where
  | nilDealConfig
  | emptyWallet
  | outOfRange (fileSize minP maxP : Int)
  | priceExceeded (minerPrice maxPrice : Rat)
  | durationBad (e : GoErr)
  | queryFailed (e : GoErr)
deriving DecidableEq

/-- Environment of the validator: the two interchangeable ask sources
(direct boost query and lotus query) and the chain-side duration
check. -/
structure ValEnv where
  queryAskBoost : String → Except GoErr MinerConfig
  queryAskLotus : String → Except GoErr MinerConfig
  checkDuration : Int → Int → Option GoErr

/-- Modelled from the spec: constants.DURATION_DEFAULT of go-swan-lib
is not under src/; the spec gives the default duration as about 180
days of epochs (2880 * 180). -/
def DURATION_DEFAULT : Int := 518400

/-- CheckDealWithMinerConfig (client.go lines 879-911): bounds check
first, then price selection (verified price for verified deals) scaled
down by 10^18, the ceiling check against the caller's max price, the
duration default, and the chain-side duration validation.  The
shopspring decimal division is modelled as exact rational division; no
claim depends on its 16-digit rounding. -/
def CheckDealWithMinerConfig (env : ValEnv) (dc : DealConfig) (mc : MinerConfig) :
    Except ValErr Rat :=
  if dc.fileSize < mc.minPieceSize ∨ dc.fileSize > mc.maxPieceSize then
    .error (.outOfRange dc.fileSize mc.minPieceSize mc.maxPieceSize)
  else
    let e18 : Rat := (10 : Rat) ^ (18 : Nat)
    let minerPrice : Rat := if dc.verifiedDeal then mc.verifiedPrice / e18 else mc.price / e18
    if dc.maxPrice < minerPrice then .error (.priceExceeded minerPrice dc.maxPrice)
    else
      let dur := if dc.duration = 0 then DURATION_DEFAULT else dc.duration
      match env.checkDuration dur dc.startEpoch with
      | some e => .error (.durationBad e)
      | none => .ok minerPrice

/-- The Go condition `len(boostFirst) > 0 && boostFirst[0]` selecting
the boost source as primary. -/
def boostFirstFlag (bf : List Bool) : Bool :=
  match bf with
  | [] => false
  | x :: _ => x

/-- ValidateDealConfig (client.go lines 827-862).  The boolean result
is the named return isBoost: initially true exactly when the variadic
boostFirst begins with true; it is flipped inside the error branch when
the primary source fails, and it is returned in every case.  When both
sources fail the second failure is the error returned. -/
def ValidateDealConfig (env : ValEnv) (dc : Option DealConfig) (boostFirst : List Bool) :
    Bool × Except ValErr Rat :=
  match dc with
  | none => (false, .error .nilDealConfig)
  | some dc =>
  if dc.senderWallet = "" then (false, .error .emptyWallet)
  else
    let b := boostFirstFlag boostFirst
    let first := if b then env.queryAskBoost else env.queryAskLotus
    let last := if b then env.queryAskLotus else env.queryAskBoost
    match first dc.minerFid with
    | .ok mc => (b, CheckDealWithMinerConfig env dc mc)
    | .error _ =>
      match last dc.minerFid with
      | .error e2 => (!b, .error (.queryFailed e2))
      | .ok mc => (!b, CheckDealWithMinerConfig env dc mc)

/-- Environment of CheckDealConfig: the two composite checkers
CheckDealConfigByBoost and CheckDealConfigByLotus, each returning the
piece size and the epoch price. -/
structure CdcEnv where
  byBoost : DealConfig → Except GoErr (Int × Int)
  byLotus : DealConfig → Except GoErr (Int × Int)

/-- CheckDealConfig (client.go lines 792-802): boost-first by default,
lotus-first when any variadic argument is present (the source only
tests the slice length); on primary failure the fallback result,
success or second failure alike, is returned. -/
def CheckDealConfig (env : CdcEnv) (dc : DealConfig) (lotusFirst : List Bool) :
    Except GoErr (Int × Int) :=
  let first := if lotusFirst.length > 0 then env.byLotus else env.byBoost
  let last := if lotusFirst.length > 0 then env.byBoost else env.byLotus
  match first dc with
  | .ok r => .ok r
  | .error _ => last dc

/-- Recognizer for the OutOfRange condition among validation results. -/
def resultIsOutOfRange : Except ValErr Rat → Bool
  | .error (.outOfRange _ _ _) => true
  | _ => false

/-- One run of doRpc (client.go lines 669-691) as a race: the
goroutine performs the cbor write then the cbor read and sends the
composite outcome on the unbuffered errc channel; the caller blocks in
a select between errc and ctx.Done().  ioFinishTime is the instant the
errc send becomes ready (none: the I/O never finishes), cancelTime the
instant ctx.Done() closes (none: the caller never cancels). -/
structure RpcWorld where
  writeResult : Option GoErr
  readResult : Option GoErr
  ioFinishTime : Option Nat
  cancelTime : Option Nat
  ctxErr : GoErr
deriving DecidableEq

/-- The value the goroutine sends on errc: the wrapped write error if
the write failed (the read is then never attempted), else the wrapped
read error if the read failed, else nil. -/
def ioMessage (w : RpcWorld) : Option GoErr :=
  match w.writeResult with
  | some e => some (.wrap "failed to send request" e)
  | none =>
    match w.readResult with
    | some e => some (.wrap "failed to read response" e)
    | none => none

/-- Possible results of the select in doRpc: a ready case can be
committed only if the other case is not strictly earlier; ties are
resolved nondeterministically, as the Go runtime picks among
simultaneously ready cases at random.  If neither channel ever becomes
ready the call blocks forever and no result exists. -/
inductive DoRpcReturns : RpcWorld → Option GoErr → Prop where
  | ioWins (w : RpcWorld) (t1 : Nat) :
      w.ioFinishTime = some t1 →
      (∀ t2, w.cancelTime = some t2 → t1 ≤ t2) →
      DoRpcReturns w (ioMessage w)
  | cancelWins (w : RpcWorld) (t2 : Nat) :
      w.cancelTime = some t2 →
      (∀ t1, w.ioFinishTime = some t1 → t2 ≤ t1) →
      DoRpcReturns w (some w.ctxErr)

end BoostClient

namespace Myask

/-- A prior persisted ask with sequence number 5, as stored for
provider f01000. -/
def cexPriorAsk : StorageAsk :=
  { price := 1, verifiedPrice := 1, timestamp := 10, expiry := 20, miner := "f01000",
    seqNo := 5, minPieceSize := 256, maxPieceSize := 1024 }

/-- Environment in which re-signing the loaded prior ask (seqNo 5)
fails while signing the freshly built ask (seqNo 0) succeeds: the two
signing calls serialize different records and run at different times,
so the chain collaborator may fail on one and not the other. -/
def cexAskEnv : AskEnv :=
  { dbReadFault := fun _ => none
    dbWriteFault := none
    chainHead := .ok 100
    sign := fun a => if a.seqNo = 5 then .error (.msg "wallet sign failed") else .ok "sig"
    expandFault := none
    repoInitialized := true
    createTableFault := none
    persistedDb := fun _ => none }

/-- Store state whose durable table holds cexPriorAsk for f01000. -/
def cexAskState : StoredAskState :=
  { asks := fun _ => none
    db := fun m => if m = "f01000" then some cexPriorAsk else none }

/-- Environment whose signing step always fails. -/
def swallowEnv : AskEnv :=
  { cexAskEnv with sign := fun _ => .error (.msg "wallet sign failed") }

/-- Environment whose signing step always succeeds. -/
def okAskEnv : AskEnv :=
  { cexAskEnv with sign := fun _ => .ok "sig" }

/-- Environment that signs fine but whose persistence write fails. -/
def failWriteEnv : AskEnv :=
  { cexAskEnv with sign := fun _ => .ok "sig", dbWriteFault := some (.msg "disk full") }

/-- Environment whose boost repo directory does not exist. -/
def noRepoEnv : AskEnv :=
  { cexAskEnv with repoInitialized := false }

/-- The ask SetAsk builds and signs in a given environment and state:
the chain height h is the one its ChainHead call returned. -/
def newAskOf (env : AskEnv) (s : StoredAskState) (price vp dur : Int) (m : Addr)
    (opts : List StorageAskOption) (h : Int) : StorageAsk :=
  applyOptions opts (buildAsk price vp dur m h (getSignedAsk env s m).1)

end Myask

namespace Provider

/-- Parse environment whose parsers all succeed. -/
def penvW : ParseEnv :=
  { parseFIL := fun _ => .ok 50000000
    ramInBytes := fun s => if s = "256B" then .ok 256 else .ok 1024
    parseAddr := fun s => .ok s
    blockDelaySecs := 30 }

end Provider

namespace BoostClient

/-- Network environment in which every external call succeeds and the
provider answers the proposal with a rejection carrying a reason. -/
def happyNetEnv : NetEnv :=
  { setup := .ok ()
    dialArgs := .ok ()
    fullNodeConn := .ok ()
    walletFor := fun _ => .ok "f1wallet"
    parseAddr := fun s => .ok s
    getAddrInfo := fun _ => .ok "peer1"
    connect := fun _ => .ok ()
    firstSupportedProtocol := fun _ => .ok "/fil/storage/mk/1.2.0"
    parseCid := fun s => .ok s
    collateralBounds := fun _ _ => .ok 1000
    chainHead := .ok 5000
    labelFromCid := fun s => .ok s
    walletSign := fun _ _ => .ok "sig"
    newStream := fun _ => .ok ()
    rpcResponse := .ok { accepted := false, message := "price too low" }
    dealUuid := "uuid-1" }

/-- A well-formed deal parameter record (fixed provider collateral, so
no collateral-bounds chain query is needed). -/
def baseDealParam : DealParam :=
  { provider := "f01000", commp := "baga6ea4seaq", pieceSize := 2048, carSize := 1000,
    payloadCid := "bafybeigdyr", startEpoch := 0, startEpochHeadOffset := 0,
    duration := 518400, providerCollateral := 7, storagePrice := 1,
    verified := true, fastRetrieval := true, wallet := "" }

/-- baseDealParam with a zero piece size. -/
def zeroPieceParam : DealParam := { baseDealParam with pieceSize := 0 }

/-- baseDealParam with both the absolute start epoch and the head
offset set. -/
def bothEpochParam : DealParam :=
  { baseDealParam with startEpoch := 100, startEpochHeadOffset := 200 }

/-- Miner config used by the validator instances. -/
def mcW : MinerConfig :=
  { price := 50000000, verifiedPrice := 5000000, minPieceSize := 256,
    maxPieceSize := 32 * 2 ^ 30 }

/-- Deal config whose file size (100) is below the miner minimum
piece size (256). -/
def dcW : DealConfig :=
  { minerFid := "f01000", senderWallet := "f1sender", fileSize := 100,
    payloadCid := "bafy", verifiedDeal := false, maxPrice := 1,
    duration := 0, startEpoch := 0 }

/-- Validator environment whose boost source succeeds and whose lotus
source fails. -/
def valEnvW : ValEnv :=
  { queryAskBoost := fun _ => .ok mcW
    queryAskLotus := fun _ => .error (.msg "lotus query ask failed")
    checkDuration := fun _ _ => none }

/-- Validator environment in which both sources fail. -/
def valEnvBothFail : ValEnv :=
  { queryAskBoost := fun _ => .error (.msg "boost query ask failed")
    queryAskLotus := fun _ => .error (.msg "lotus query ask failed")
    checkDuration := fun _ _ => none }

/-- A world in which the caller cancels at instant 1 while the I/O
round trip would only complete at instant 5. -/
def rpcW : RpcWorld :=
  { writeResult := none, readResult := none, ioFinishTime := some 5,
    cancelTime := some 1, ctxErr := .msg "context canceled" }

end BoostClient

namespace Myask

theorem applyOption_seqNo (o : StorageAskOption) (a : StorageAsk) :
    (applyOption o a).seqNo = a.seqNo := by
  cases o <;> rfl

theorem applyOption_miner (o : StorageAskOption) (a : StorageAsk) :
    (applyOption o a).miner = a.miner := by
  cases o <;> rfl

theorem applyOptions_seqNo (os : List StorageAskOption) (a : StorageAsk) :
    (applyOptions os a).seqNo = a.seqNo := by
  induction os generalizing a with
  | nil => rfl
  | cons o os ih =>
    show (applyOptions os (applyOption o a)).seqNo = a.seqNo
    rw [ih, applyOption_seqNo]

theorem applyOptions_miner (os : List StorageAskOption) (a : StorageAsk) :
    (applyOptions os a).miner = a.miner := by
  induction os generalizing a with
  | nil => rfl
  | cons o os ih =>
    show (applyOptions os (applyOption o a)).miner = a.miner
    rw [ih, applyOption_miner]

/-- When the db read has no injected fault, the load error of SetAsk
is either absent or sql.ErrNoRows, so control always reaches the tail,
with the loaded SignedStorageAsk cached first. -/
theorem SetAsk_eq_afterLoad (env : AskEnv) (s : StoredAskState) (price vp dur : Int)
    (m : Addr) (opts : List StorageAskOption)
    (hread : env.dbReadFault m = none) :
    SetAsk env s price vp dur m opts =
      setAskAfterLoad env { s with asks := upd s.asks m (getSignedAsk env s m).1 }
        price vp dur m opts (getSignedAsk env s m).1 := by
  unfold SetAsk getSignedAsk dbGet
  rw [hread]
  cases hdb : s.db m with
  | none => simp [getSignedAsk, dbGet, hread, hdb, errorsIsNoRows]
  | some a =>
    cases hsg : env.sign a with
    | error e => simp [getSignedAsk, dbGet, hread, hdb, hsg]
    | ok sg => simp [getSignedAsk, dbGet, hread, hdb, hsg]

/-- Inversion of a successful tail run: the chain head query, the
signing of the (option-adjusted) built ask, and the persistence write
all succeeded, and the final state is the cache update followed by the
db update. -/
theorem setAskAfterLoad_ok (env : AskEnv) (s1 : StoredAskState) (price vp dur : Int)
    (m : Addr) (opts : List StorageAskOption) (ma : SignedStorageAsk)
    (s' : StoredAskState)
    (hrun : setAskAfterLoad env s1 price vp dur m opts ma = (s', none)) :
    ∃ h sg, env.chainHead = .ok h ∧
      env.sign (applyOptions opts (buildAsk price vp dur m h ma)) = .ok sg ∧
      env.dbWriteFault = none ∧
      s' = { asks := upd s1.asks m
               { ask := some (applyOptions opts (buildAsk price vp dur m h ma)),
                 signature := some sg },
             db := upd s1.db (applyOptions opts (buildAsk price vp dur m h ma)).miner
               (applyOptions opts (buildAsk price vp dur m h ma)) } := by
  unfold setAskAfterLoad at hrun
  cases hch : env.chainHead with
  | error e => rw [hch] at hrun; simp at hrun
  | ok h =>
    rw [hch] at hrun
    simp only at hrun
    cases hsg : env.sign (applyOptions opts (buildAsk price vp dur m h ma)) with
    | error e => rw [hsg] at hrun; simp at hrun
    | ok sg =>
      rw [hsg] at hrun
      simp only [storeAsk] at hrun
      cases hwf : env.dbWriteFault with
      | some e => rw [hwf] at hrun; simp at hrun
      | none =>
        rw [hwf] at hrun
        simp only [Prod.mk.injEq] at hrun
        exact ⟨h, sg, rfl, hsg, rfl, hrun.1.symm⟩

/-- C4: the claim says every signing error propagates unchanged from
both SetAsk and getSignedAsk.  The code contradicts it in
getSignedAsk: at a store holding a persisted ask for f01000 and a
chain collaborator whose WalletSign fails, getSignedAsk returns the
ZERO SignedStorageAsk with a NIL error (the source returns
`legacytypes.SignedStorageAsk{}, nil` on the error branch), silently
discarding the failure — while SetAsk does propagate the signing error
of its own signing step, as the second conjunct shows.  The spec is
clearly the intent and the nil return a slip. -/
theorem getSignedAsk_swallows_sign_error :
    (getSignedAsk swallowEnv cexAskState "f01000" = (zeroSignedStorageAsk, none))
    ∧ ((SetAsk swallowEnv cexAskState 7 8 50 "f01000" []).2 =
        some (.msg "wallet sign failed")) :=
  ⟨rfl, rfl⟩

/-- C3 counterexample: a successful SetAsk that does NOT store
priorSeqNo + 1.  The durable store holds an ask with seqNo 5 for
f01000; re-signing that loaded ask fails (the error is swallowed by
getSignedAsk), the fresh ask signs fine, and the call succeeds — but
the stored sequence number is 0, not 6. -/
theorem SetAsk_seqNo_reset_cex :
    ((SetAsk cexAskEnv cexAskState 7 8 50 "f01000" []).2 = none)
    ∧ ((cexAskState.db "f01000").map StorageAsk.seqNo = some 5)
    ∧ (((SetAsk cexAskEnv cexAskState 7 8 50 "f01000" []).1.db "f01000").map
        StorageAsk.seqNo = some 0) :=
  ⟨rfl, rfl, rfl⟩

/-- C3 (amended): for every provider, every successful SetAsk call
whose load of the prior persisted ask also re-signed successfully
stores a sequence number exactly one greater than the previously
stored one, and a first SetAsk (no prior persisted ask) stores
sequence number 0; when the re-sign of the loaded prior ask fails, the
swallowed error makes the sequence number restart at 0 instead. -/
theorem SetAsk_seqNo_increment (env : AskEnv) (s : StoredAskState) (price vp dur : Int)
    (m : Addr) (opts : List StorageAskOption) (s' : StoredAskState)
    (hread : env.dbReadFault m = none)
    (hrun : SetAsk env s price vp dur m opts = (s', none)) :
    (∀ a sg, s.db m = some a → env.sign a = .ok sg →
      (s'.db m).map StorageAsk.seqNo = some (a.seqNo + 1))
    ∧ (s.db m = none → (s'.db m).map StorageAsk.seqNo = some 0) := by
  rw [SetAsk_eq_afterLoad env s price vp dur m opts hread] at hrun
  obtain ⟨h, sg2, hch, hsg, hwf, hs'⟩ :=
    setAskAfterLoad_ok _ _ _ _ _ _ _ _ _ hrun
  constructor
  · intro a sg ha hsa
    have hget : (getSignedAsk env s m).1 = { ask := some a, signature := some sg } := by
      simp [getSignedAsk, dbGet, hread, ha, hsa]
    subst hs'
    rw [hget]
    have hm : (applyOptions opts (buildAsk price vp dur m h
        { ask := some a, signature := some sg })).miner = m := by
      rw [applyOptions_miner]; rfl
    rw [hm]
    simp [upd, applyOptions_seqNo, buildAsk]
  · intro ha
    have hget : (getSignedAsk env s m).1 = zeroSignedStorageAsk := by
      simp [getSignedAsk, dbGet, hread, ha]
    subst hs'
    rw [hget]
    have hm : (applyOptions opts (buildAsk price vp dur m h zeroSignedStorageAsk)).miner
        = m := by
      rw [applyOptions_miner]; rfl
    rw [hm]
    simp [upd, applyOptions_seqNo, buildAsk, zeroSignedStorageAsk]

/-- Witness for C3 (amended): with a signing step that always
succeeds, updating the prior ask of sequence number 5 stores 6. -/
theorem SetAsk_seqNo_increment_witness :
    ((SetAsk okAskEnv cexAskState 7 8 50 "f01000" []).1.db "f01000").map
      StorageAsk.seqNo = some (5 + 1) := by
  have hrun : SetAsk okAskEnv cexAskState 7 8 50 "f01000" [] =
      ((SetAsk okAskEnv cexAskState 7 8 50 "f01000" []).1, none) := rfl
  exact (SetAsk_seqNo_increment okAskEnv cexAskState 7 8 50 "f01000" []
    (SetAsk okAskEnv cexAskState 7 8 50 "f01000" []).1 rfl hrun).1
    cexPriorAsk "sig" rfl rfl

/-- C10: SetAsk is not atomic on persistence failure.  Whenever the
load step reads cleanly, the chain head query answers h, signing the
newly built ask succeeds, and the persistence write fails, the call
returns the write error while the in-memory cache s.asks already holds
the new signed ask — whose sequence number is one past the prior
persisted one — and the durable store is unchanged. -/
theorem SetAsk_cache_before_persist (env : AskEnv) (s : StoredAskState)
    (price vp dur : Int) (m : Addr) (opts : List StorageAskOption)
    (h : Int) (sg : Sig) (e : GoErr)
    (hread : env.dbReadFault m = none)
    (hch : env.chainHead = .ok h)
    (hsg : env.sign (newAskOf env s price vp dur m opts h) = .ok sg)
    (hwf : env.dbWriteFault = some e) :
    ((SetAsk env s price vp dur m opts).2 = some e)
    ∧ ((SetAsk env s price vp dur m opts).1.db = s.db)
    ∧ ((SetAsk env s price vp dur m opts).1.asks m =
        some { ask := some (newAskOf env s price vp dur m opts h),
               signature := some sg })
    ∧ (∀ a sga, s.db m = some a → env.sign a = .ok sga →
        (newAskOf env s price vp dur m opts h).seqNo = a.seqNo + 1) := by
  rw [SetAsk_eq_afterLoad env s price vp dur m opts hread]
  unfold setAskAfterLoad
  rw [hch]
  simp only
  rw [show env.sign (applyOptions opts (buildAsk price vp dur m h
      (getSignedAsk env s m).1)) = Except.ok sg from hsg]
  simp only [storeAsk]
  rw [hwf]
  refine ⟨rfl, rfl, ?_, ?_⟩
  · show upd (upd s.asks m (getSignedAsk env s m).1) m
      { ask := some (applyOptions opts (buildAsk price vp dur m h
          (getSignedAsk env s m).1)), signature := some sg } m = _
    simp [upd, newAskOf]
  · intro a sga ha hsa
    have hget : (getSignedAsk env s m).1 = { ask := some a, signature := some sga } := by
      simp [getSignedAsk, dbGet, hread, ha, hsa]
    simp [newAskOf, hget, applyOptions_seqNo, buildAsk]

/-- Witness for C10: a failing write leaves the error surfaced and the
built ask one past the stored sequence number 5. -/
theorem SetAsk_cache_before_persist_witness :
    ((SetAsk failWriteEnv cexAskState 7 8 50 "f01000" []).2 = some (.msg "disk full"))
    ∧ ((newAskOf failWriteEnv cexAskState 7 8 50 "f01000" [] 100).seqNo = 5 + 1) := by
  have h := SetAsk_cache_before_persist failWriteEnv cexAskState 7 8 50 "f01000" []
    100 "sig" (.msg "disk full") rfl rfl rfl rfl
  exact ⟨h.1, h.2.2.2 cexPriorAsk "sig" rfl rfl⟩

end Myask

namespace Provider

/-- C9: MarketSetAsk discards the NewStoredAsk error.  Whenever the
parse steps succeed and NewStoredAsk fails (for example the boost repo
path is not initialized), the call reaches `storedAsk.SetAsk(...)` on
the nil pointer NewStoredAsk returned alongside its error, so the run
ends in a nil dereference panic instead of returning the
initialization error. -/
theorem MarketSetAsk_nil_deref (env : Myask.AskEnv) (penv : ParseEnv)
    (boostRepo minerId p vp mn mx : String) (pri vpri mnv mxv : Int)
    (miner : Myask.Addr) (e0 : GoErr)
    (h1 : penv.parseFIL p = .ok pri)
    (h2 : penv.parseFIL vp = .ok vpri)
    (h3 : penv.ramInBytes mn = .ok mnv)
    (h4 : ¬ mnv < 256)
    (h5 : penv.ramInBytes mx = .ok mxv)
    (h6 : penv.parseAddr minerId = .ok miner)
    (h7 : Myask.NewStoredAsk env boostRepo = .error e0) :
    MarketSetAsk env penv boostRepo minerId p vp mn mx = .panicNilDeref := by
  unfold MarketSetAsk
  rw [h1, h2, h3]
  simp only [if_neg h4]
  rw [h5, h6, h7]

/-- Witness for C9: an uninitialized repo makes MarketSetAsk panic. -/
theorem MarketSetAsk_nil_deref_witness :
    MarketSetAsk Myask.noRepoEnv penvW "/root/.boostd" "f01000" "1" "2" "256B" "32GiB"
      = .panicNilDeref :=
  MarketSetAsk_nil_deref Myask.noRepoEnv penvW "/root/.boostd" "f01000" "1" "2" "256B"
    "32GiB" 50000000 50000000 256 1024 "f01000"
    (.msg "boost-repo at /root/.boostd is not initialized")
    rfl rfl (by decide) (by decide) (by decide) rfl rfl

end Provider

namespace BoostClient

/-- C1 counterexample: with every external step succeeding and the
provider answering accepted = false with reason "price too low",
sendDealToMiner returns an exceptional error ("deal proposal rejected:
price too low"), not a successful call with a negative outcome; the
claim is false on the code. -/
theorem sendDealToMiner_rejected_cex :
    sendDealToMiner happyNetEnv baseDealParam =
      ([.resolvePeer, .connectPeer, .protocolCheck, .chainQueryHead, .openStream,
        .proposalRpc],
       .error (.msg "deal proposal rejected: price too low")) := rfl

/-- C1 (amended): when the negotiation reaches the provider's
DealResponse and accepted is false, sendDealToMiner (and hence
StartDealDirect, which returns its result) surfaces the rejection as
an error that carries the provider's reason verbatim ("deal proposal
rejected: " followed by the reason), rather than as a successful call
with a negative outcome. -/
theorem sendDealToMiner_rejected_is_error (env : NetEnv) (dealP : DealParam)
    (walletAddr maddr peerId x pieceCid rootCid lbl sg reason : String) (cb hd : Int)
    (hsetup : env.setup = .ok ())
    (hdial : env.dialArgs = .ok ())
    (hfc : env.fullNodeConn = .ok ())
    (hw : env.walletFor dealP.wallet = .ok walletAddr)
    (hpa : env.parseAddr dealP.provider = .ok maddr)
    (hinfo : env.getAddrInfo maddr = .ok peerId)
    (hconn : env.connect peerId = .ok ())
    (hproto : env.firstSupportedProtocol peerId = .ok x)
    (hx : x.length ≠ 0)
    (hcp : env.parseCid dealP.commp = .ok pieceCid)
    (hps : dealP.pieceSize ≠ 0)
    (hpcid : env.parseCid dealP.payloadCid = .ok rootCid)
    (hcs : dealP.carSize ≠ 0)
    (hcol : dealP.providerCollateral ≠ 0 ∨
      (dealP.providerCollateral = 0 ∧
        env.collateralBounds dealP.pieceSize dealP.verified = .ok cb))
    (hhead : env.chainHead = .ok hd)
    (hse : ¬(dealP.startEpoch ≠ 0 ∧ dealP.startEpochHeadOffset ≠ 0))
    (hlbl : env.labelFromCid rootCid = .ok lbl)
    (hsig : ∀ pr, env.walletSign walletAddr pr = .ok sg)
    (hstream : env.newStream peerId = .ok ())
    (hresp : env.rpcResponse = .ok { accepted := false, message := reason }) :
    (sendDealToMiner env dealP).2 =
      .error (.msg ("deal proposal rejected: " ++ reason)) := by
  rcases hcol with hpcol | ⟨hpcol, hcb⟩
  · simp [sendDealToMiner, sendDealCont, dealProposal, hsetup, hdial, hfc, hw, hpa,
      hinfo, hconn, hproto, hx, hcp, hps, hpcid, hcs, hpcol, hhead, hse, hlbl, hsig,
      hstream, hresp]
  · simp [sendDealToMiner, sendDealCont, dealProposal, hsetup, hdial, hfc, hw, hpa,
      hinfo, hconn, hproto, hx, hcp, hps, hpcid, hcs, hpcol, hcb, hhead, hse, hlbl,
      hsig, hstream, hresp]

/-- Witness for C1 (amended), at the concrete rejecting environment. -/
theorem sendDealToMiner_rejected_is_error_witness :
    (sendDealToMiner happyNetEnv baseDealParam).2 =
      .error (.msg ("deal proposal rejected: " ++ "price too low")) :=
  sendDealToMiner_rejected_is_error happyNetEnv baseDealParam
    "f1wallet" "f01000" "peer1" "/fil/storage/mk/1.2.0" "baga6ea4seaq" "bafybeigdyr"
    "bafybeigdyr" "sig" "price too low" 0 5000
    rfl rfl rfl rfl rfl rfl rfl rfl (by decide) rfl (by decide) rfl (by decide)
    (Or.inl (by decide)) rfl (by decide) rfl (fun _ => rfl) rfl rfl

/-- C2 counterexample: a request with zero piece size is rejected with
the validation error, but only AFTER peer resolution, peer connection
and the protocol check have all taken place — the performed network
trace is not empty, contradicting "before any network activity". -/
theorem sendDealToMiner_validation_after_network_cex :
    (sendDealToMiner happyNetEnv zeroPieceParam =
      ([.resolvePeer, .connectPeer, .protocolCheck],
       .error (.msg "must provide piece-size parameter for CAR url")))
    ∧ (([.resolvePeer, .connectPeer, .protocolCheck] : List NetEvent) ≠ []) :=
  ⟨rfl, by decide⟩

/-- C2 (amended): each InputValidation violation — zero piece size,
zero car size, or both startEpoch and startEpochHeadOffset set — is
detected and returned before the proposal is built, signed or sent and
before the deal stream is opened, but only after peer resolution, peer
connection and the protocol-version check; the mutually-exclusive
start-epoch check additionally runs after the collateral-bounds query
(when needed) and the chain-head query.  The returned traces are
exact, so no stream-open, proposal round trip, or (for the size
checks) chain query occurs before the validation error. -/
theorem sendDealToMiner_validation_order (env : NetEnv) (dealP : DealParam)
    (walletAddr maddr peerId x : String)
    (hsetup : env.setup = .ok ())
    (hdial : env.dialArgs = .ok ())
    (hfc : env.fullNodeConn = .ok ())
    (hw : env.walletFor dealP.wallet = .ok walletAddr)
    (hpa : env.parseAddr dealP.provider = .ok maddr)
    (hinfo : env.getAddrInfo maddr = .ok peerId)
    (hconn : env.connect peerId = .ok ())
    (hproto : env.firstSupportedProtocol peerId = .ok x)
    (hx : x.length ≠ 0) :
    (∀ pieceCid, env.parseCid dealP.commp = .ok pieceCid → dealP.pieceSize = 0 →
      sendDealToMiner env dealP =
        ([.resolvePeer, .connectPeer, .protocolCheck],
         .error (.msg "must provide piece-size parameter for CAR url")))
    ∧ (∀ pieceCid rootCid, env.parseCid dealP.commp = .ok pieceCid →
        dealP.pieceSize ≠ 0 → env.parseCid dealP.payloadCid = .ok rootCid →
        dealP.carSize = 0 →
        sendDealToMiner env dealP =
          ([.resolvePeer, .connectPeer, .protocolCheck],
           .error (.msg "size of car file cannot be 0")))
    ∧ (∀ pieceCid rootCid hd, env.parseCid dealP.commp = .ok pieceCid →
        dealP.pieceSize ≠ 0 → env.parseCid dealP.payloadCid = .ok rootCid →
        dealP.carSize ≠ 0 → dealP.providerCollateral ≠ 0 →
        env.chainHead = .ok hd →
        dealP.startEpoch ≠ 0 → dealP.startEpochHeadOffset ≠ 0 →
        sendDealToMiner env dealP =
          ([.resolvePeer, .connectPeer, .protocolCheck, .chainQueryHead],
           .error (.msg "only one flag from start-epoch-head-offset or start-epoch can be specified")))
    ∧ (∀ pieceCid rootCid hd cb, env.parseCid dealP.commp = .ok pieceCid →
        dealP.pieceSize ≠ 0 → env.parseCid dealP.payloadCid = .ok rootCid →
        dealP.carSize ≠ 0 → dealP.providerCollateral = 0 →
        env.collateralBounds dealP.pieceSize dealP.verified = .ok cb →
        env.chainHead = .ok hd →
        dealP.startEpoch ≠ 0 → dealP.startEpochHeadOffset ≠ 0 →
        sendDealToMiner env dealP =
          ([.resolvePeer, .connectPeer, .protocolCheck, .chainQueryCollateral,
            .chainQueryHead],
           .error (.msg "only one flag from start-epoch-head-offset or start-epoch can be specified"))) := by
  refine ⟨?_, ?_, ?_, ?_⟩
  · intro pieceCid hcp hps
    simp [sendDealToMiner, hsetup, hdial, hfc, hw, hpa, hinfo, hconn, hproto, hx,
      hcp, hps]
  · intro pieceCid rootCid hcp hps hpcid hcs
    simp [sendDealToMiner, hsetup, hdial, hfc, hw, hpa, hinfo, hconn, hproto, hx,
      hcp, hps, hpcid, hcs]
  · intro pieceCid rootCid hd hcp hps hpcid hcs hpcol hhead hs1 hs2
    simp [sendDealToMiner, sendDealCont, hsetup, hdial, hfc, hw, hpa, hinfo, hconn,
      hproto, hx, hcp, hps, hpcid, hcs, hpcol, hhead, hs1, hs2]
  · intro pieceCid rootCid hd cb hcp hps hpcid hcs hpcol hcb hhead hs1 hs2
    simp [sendDealToMiner, sendDealCont, hsetup, hdial, hfc, hw, hpa, hinfo, hconn,
      hproto, hx, hcp, hps, hpcid, hcs, hpcol, hcb, hhead, hs1, hs2]

/-- Witness for C2 (amended): both start-epoch flags set is rejected
after the chain-head query but before any stream is opened. -/
theorem sendDealToMiner_validation_order_witness :
    sendDealToMiner happyNetEnv bothEpochParam =
      ([.resolvePeer, .connectPeer, .protocolCheck, .chainQueryHead],
       .error (.msg "only one flag from start-epoch-head-offset or start-epoch can be specified")) :=
  (sendDealToMiner_validation_order happyNetEnv bothEpochParam "f1wallet" "f01000"
      "peer1" "/fil/storage/mk/1.2.0" rfl rfl rfl rfl rfl rfl rfl rfl
      (by decide)).2.2.1
    "baga6ea4seaq" "bafybeigdyr" 5000 rfl (by decide) rfl (by decide) (by decide) rfl
    (by decide) (by decide)

/-- C5: the proposal built by dealProposal always has endEpoch equal
to startEpoch plus the duration, and its per-epoch storage price is
the floor of pieceSize times the per-epoch-per-GiB price over 2^30
(stated both as the Euclidean division the code performs and by the
floor bounds), with the concrete instance pieceSize = 2^30, price =
100 yielding 100. -/
theorem dealProposal_price_and_epochs :
    (∀ (clientAddr lbl : String) (pieceSize : Nat) (pieceCid minerAddr : String)
        (startEpoch duration : Int) (verified : Bool)
        (providerCollateral storagePrice : Int),
      ((mkDealProposal clientAddr lbl pieceSize pieceCid minerAddr startEpoch duration
          verified providerCollateral storagePrice).endEpoch = startEpoch + duration)
      ∧ ((mkDealProposal clientAddr lbl pieceSize pieceCid minerAddr startEpoch duration
          verified providerCollateral storagePrice).storagePricePerEpoch =
            ((pieceSize : Int) * storagePrice) / 2 ^ 30)
      ∧ (2 ^ 30 * (mkDealProposal clientAddr lbl pieceSize pieceCid minerAddr startEpoch
          duration verified providerCollateral storagePrice).storagePricePerEpoch ≤
            (pieceSize : Int) * storagePrice)
      ∧ ((pieceSize : Int) * storagePrice < 2 ^ 30 *
          ((mkDealProposal clientAddr lbl pieceSize pieceCid minerAddr startEpoch
            duration verified providerCollateral storagePrice).storagePricePerEpoch + 1)))
    ∧ (∀ (env : NetEnv) (clientAddr rootCid : String) (pieceSize : Nat)
        (pieceCid minerAddr : String) (startEpoch duration : Int) (verified : Bool)
        (providerCollateral storagePrice : Int) (cdp : ClientDealProposal),
      dealProposal env clientAddr rootCid pieceSize pieceCid minerAddr startEpoch
          duration verified providerCollateral storagePrice = .ok cdp →
      (cdp.proposal.endEpoch = cdp.proposal.startEpoch + duration
       ∧ cdp.proposal.storagePricePerEpoch = ((pieceSize : Int) * storagePrice) / 2 ^ 30))
    ∧ ((mkDealProposal "c" "l" (2 ^ 30) "p" "m" 0 0 true 0 100).storagePricePerEpoch
        = 100) := by
  refine ⟨?_, ?_, ?_⟩
  · intro clientAddr lbl pieceSize pieceCid minerAddr startEpoch duration verified
      providerCollateral storagePrice
    refine ⟨rfl, rfl, ?_, ?_⟩
    · have h1 := Int.ediv_add_emod ((pieceSize : Int) * storagePrice) (2 ^ 30)
      have h2 := Int.emod_nonneg ((pieceSize : Int) * storagePrice)
        (show (2 ^ 30 : Int) ≠ 0 by norm_num)
      show 2 ^ 30 * (((pieceSize : Int) * storagePrice) / 2 ^ 30) ≤
        (pieceSize : Int) * storagePrice
      linarith
    · have h1 := Int.ediv_add_emod ((pieceSize : Int) * storagePrice) (2 ^ 30)
      have h3 := Int.emod_lt_of_pos ((pieceSize : Int) * storagePrice)
        (show (0 : Int) < 2 ^ 30 by norm_num)
      show (pieceSize : Int) * storagePrice <
        2 ^ 30 * ((((pieceSize : Int) * storagePrice) / 2 ^ 30) + 1)
      rw [mul_add, mul_one]
      linarith
  · intro env clientAddr rootCid pieceSize pieceCid minerAddr startEpoch duration
      verified providerCollateral storagePrice cdp hok
    unfold dealProposal at hok
    cases hlbl : env.labelFromCid rootCid with
    | error e => rw [hlbl] at hok; simp at hok
    | ok lbl =>
      rw [hlbl] at hok
      simp only at hok
      cases hsg : env.walletSign clientAddr (mkDealProposal clientAddr lbl pieceSize
          pieceCid minerAddr startEpoch duration verified providerCollateral
          storagePrice) with
      | error e => rw [hsg] at hok; simp at hok
      | ok sg =>
        rw [hsg] at hok
        simp only [Except.ok.injEq] at hok
        subst hok
        exact ⟨rfl, rfl⟩
  · decide

/-- Witness for C5, at a concrete successful build. -/
theorem dealProposal_price_and_epochs_witness :
    (dealProposal happyNetEnv "c" "r" 2048 "p" "m" 10 20 true 0 3 =
      .ok ⟨mkDealProposal "c" "r" 2048 "p" "m" 10 20 true 0 3, "sig"⟩)
    ∧ ((⟨mkDealProposal "c" "r" 2048 "p" "m" 10 20 true 0 3, "sig"⟩ :
        ClientDealProposal).proposal.endEpoch = 10 + 20) := by
  refine ⟨rfl, ?_⟩
  exact (dealProposal_price_and_epochs.2.1 happyNetEnv "c" "r" 2048 "p" "m" 10 20 true
    0 3 ⟨mkDealProposal "c" "r" 2048 "p" "m" 10 20 true 0 3, "sig"⟩ rfl).1

/-- CheckDealWithMinerConfig yields the OutOfRange condition exactly
on a bounds violation: every other exit (price ceiling, duration)
produces a different condition. -/
theorem checkDeal_outOfRange_aux (env : ValEnv) (dc : DealConfig) (mc : MinerConfig) :
    resultIsOutOfRange (CheckDealWithMinerConfig env dc mc) = true ↔
      (dc.fileSize < mc.minPieceSize ∨ dc.fileSize > mc.maxPieceSize) := by
  by_cases hb : dc.fileSize < mc.minPieceSize ∨ dc.fileSize > mc.maxPieceSize
  · simp [CheckDealWithMinerConfig, hb, resultIsOutOfRange]
  · have hfalse : resultIsOutOfRange (CheckDealWithMinerConfig env dc mc) = false := by
      simp only [CheckDealWithMinerConfig, if_neg hb]
      repeat' split
      all_goals rfl
    simp [hfalse, hb]

/-- C6: the validator fails with the OutOfRange condition exactly when
request.fileSize lies outside [ask.minPieceSize, ask.maxPieceSize] —
for CheckDealWithMinerConfig directly, and through ValidateDealConfig
for both price-source orderings, whether the ask came from the primary
source or (after a primary failure) from the fallback source. -/
theorem validator_outOfRange_iff :
    (∀ env dc mc, resultIsOutOfRange (CheckDealWithMinerConfig env dc mc) = true ↔
      (dc.fileSize < mc.minPieceSize ∨ dc.fileSize > mc.maxPieceSize))
    ∧ (∀ (env : ValEnv) (dc : DealConfig) (bf : List Bool) (mc : MinerConfig),
        dc.senderWallet ≠ "" →
        (if boostFirstFlag bf then env.queryAskBoost else env.queryAskLotus) dc.minerFid
          = .ok mc →
        (resultIsOutOfRange (ValidateDealConfig env (some dc) bf).2 = true ↔
          (dc.fileSize < mc.minPieceSize ∨ dc.fileSize > mc.maxPieceSize)))
    ∧ (∀ (env : ValEnv) (dc : DealConfig) (bf : List Bool) (mc : MinerConfig)
        (e1 : GoErr), dc.senderWallet ≠ "" →
        (if boostFirstFlag bf then env.queryAskBoost else env.queryAskLotus) dc.minerFid
          = .error e1 →
        (if boostFirstFlag bf then env.queryAskLotus else env.queryAskBoost) dc.minerFid
          = .ok mc →
        (resultIsOutOfRange (ValidateDealConfig env (some dc) bf).2 = true ↔
          (dc.fileSize < mc.minPieceSize ∨ dc.fileSize > mc.maxPieceSize))) := by
  refine ⟨checkDeal_outOfRange_aux, ?_, ?_⟩
  · intro env dc bf mc hw hq
    have hred : (ValidateDealConfig env (some dc) bf).2 =
        CheckDealWithMinerConfig env dc mc := by
      simp [ValidateDealConfig, hw, hq]
    rw [hred]
    exact checkDeal_outOfRange_aux env dc mc
  · intro env dc bf mc e1 hw hq1 hq2
    have hred : (ValidateDealConfig env (some dc) bf).2 =
        CheckDealWithMinerConfig env dc mc := by
      simp [ValidateDealConfig, hw, hq1, hq2]
    rw [hred]
    exact checkDeal_outOfRange_aux env dc mc

/-- Witness for C6: a 100-byte file against a [256, 32 GiB] ask fails
OutOfRange through the boost-first ordering. -/
theorem validator_outOfRange_iff_witness :
    resultIsOutOfRange (ValidateDealConfig valEnvW (some dcW) [true]).2 = true :=
  (validator_outOfRange_iff.2.1 valEnvW dcW [true] mcW (by decide) rfl).mpr (by decide)

/-- C7: when the primary price source's queryAsk fails, the fallback
source is queried and the used-primary flag (isBoost) is flipped, so
the result reports the source actually used, and the validation runs
on the fallback's config; when both sources fail, the second
(fallback) failure is the error returned.  The same
second-failure-returned behavior holds for CheckDealConfig. -/
theorem validator_fallback_semantics :
    (∀ (env : ValEnv) (dc : DealConfig) (bf : List Bool) (mc : MinerConfig)
        (e1 : GoErr), dc.senderWallet ≠ "" →
        (if boostFirstFlag bf then env.queryAskBoost else env.queryAskLotus) dc.minerFid
          = .error e1 →
        (if boostFirstFlag bf then env.queryAskLotus else env.queryAskBoost) dc.minerFid
          = .ok mc →
        ValidateDealConfig env (some dc) bf =
          (!(boostFirstFlag bf), CheckDealWithMinerConfig env dc mc))
    ∧ (∀ (env : ValEnv) (dc : DealConfig) (bf : List Bool) (e1 e2 : GoErr),
        dc.senderWallet ≠ "" →
        (if boostFirstFlag bf then env.queryAskBoost else env.queryAskLotus) dc.minerFid
          = .error e1 →
        (if boostFirstFlag bf then env.queryAskLotus else env.queryAskBoost) dc.minerFid
          = .error e2 →
        ValidateDealConfig env (some dc) bf =
          (!(boostFirstFlag bf), .error (.queryFailed e2)))
    ∧ (∀ (cenv : CdcEnv) (dc : DealConfig) (lf : List Bool) (e1 : GoErr),
        (if lf.length > 0 then cenv.byLotus else cenv.byBoost) dc = .error e1 →
        CheckDealConfig cenv dc lf =
          (if lf.length > 0 then cenv.byBoost else cenv.byLotus) dc) := by
  refine ⟨?_, ?_, ?_⟩
  · intro env dc bf mc e1 hw hq1 hq2
    simp [ValidateDealConfig, hw, hq1, hq2]
  · intro env dc bf e1 e2 hw hq1 hq2
    simp [ValidateDealConfig, hw, hq1, hq2]
  · intro cenv dc lf e1 hq1
    simp [CheckDealConfig, hq1]

/-- Witness for C7: with the lotus-first ordering, a failing lotus
source falls back to the boost source and the flag reports boost. -/
theorem validator_fallback_semantics_witness :
    ValidateDealConfig valEnvW (some dcW) [] =
      (true, CheckDealWithMinerConfig valEnvW dcW mcW) :=
  validator_fallback_semantics.1 valEnvW dcW [] mcW (.msg "lotus query ask failed")
    (by decide) rfl rfl

/-- C8: in the doRpc race, if the caller's cancellation fires strictly
before the background write+read completes (or the I/O never
completes), then the only value the call can return is the
cancellation error — any late-arriving success or failure from the
abandoned I/O cannot be the result — and the cancellation return is
indeed available, so the call does not hang. -/
theorem doRpc_cancellation_precedence (w : RpcWorld) (r : Option GoErr) (t2 : Nat)
    (hc : w.cancelTime = some t2)
    (hbefore : ∀ t1, w.ioFinishTime = some t1 → t2 < t1)
    (hr : DoRpcReturns w r) :
    r = some w.ctxErr ∧ DoRpcReturns w (some w.ctxErr) := by
  constructor
  · cases hr with
    | ioWins t1 h1 hle =>
      exfalso
      have ha := hle t2 hc
      have hb := hbefore t1 h1
      omega
    | cancelWins t2' h2 hle => rfl
  · exact DoRpcReturns.cancelWins w t2 hc (fun t1 h1 => Nat.le_of_lt (hbefore t1 h1))

/-- Witness for C8: cancellation at instant 1 against I/O completing
at instant 5 returns the context error. -/
theorem doRpc_cancellation_precedence_witness :
    (some (GoErr.msg "context canceled") = some rpcW.ctxErr)
    ∧ DoRpcReturns rpcW (some rpcW.ctxErr) :=
  doRpc_cancellation_precedence rpcW (some (GoErr.msg "context canceled")) 1 rfl
    (fun t1 h1 => by injection h1 with h; omega)
    (DoRpcReturns.cancelWins rpcW 1 rfl (fun t1 h1 => by injection h1 with h; omega))

end BoostClient
